import Mathlib

/-
Verification of the session/resource-lifecycle layer of a small MCP
(remote tool invocation) client repository.  The repository has two
source files:

  * practice.py — an AsyncExitStack demonstration: `get_connection` builds
    an async context manager printing "ENTER...{name}" / "EXIT! {name}",
    and `main` enters connection "A", conditionally enters "B", pushes an
    async cleanup callback, prints a status line, and lets the stack
    unwind.

  * client.py — an `MCPClient` facade whose `__aenter__` enters a
    streaming transport and a `ClientSession` on an AsyncExitStack and
    calls `initialize()`, whose `__aexit__` closes the stack, and which
    exposes `list_tool_names` and `call_tool`.

The deterministic control flow of these files is embedded shallowly as
trace-producing functions.  External collaborators that are not in the
repository (contextlib.AsyncExitStack from the Python standard library,
and the mcp SDK's `streamablehttp_client` transport and `ClientSession`)
are modelled from the specification, as noted on each such definition;
their possible outcomes (open/enter/handshake success or failure, server
responses) are supplied through an explicit environment record.
-/

namespace RStack

/-- Modelled from the spec: the Resource Stack (contextlib.AsyncExitStack)
is standard-library code not under src/.  One step of a client program
against the stack: either a scoped acquisition (`enter`, which may fail on
acquire and whose recorded release may later fail), or registration of a
release-only callback (`push_cleanup`), which may itself fail when run. -/
inductive RStep where
  | acquire (name : String) (acquireOk : Bool) (releaseOk : Bool)
  | pushCallback (name : String) (callbackOk : Bool)
deriving DecidableEq, Repr

/-- Modelled from the spec: an entry recorded on the Resource Stack —
either the release step of a successfully acquired scoped resource, or a
bare release-only callback.  The Bool records whether the release step
will succeed when invoked. -/
inductive Entry where
  | resource (name : String) (releaseOk : Bool)
  | callback (name : String) (callbackOk : Bool)
deriving DecidableEq, Repr

/-- Name identifying a stack entry. -/
def Entry.name : Entry → String
  | .resource n _ => n
  | .callback n _ => n

/-- Whether the entry's release step succeeds when invoked. -/
def Entry.ok : Entry → Bool
  | .resource _ b => b
  | .callback _ b => b

/-- Modelled from the spec: the acquisition phase of a program running
against an open Resource Stack.  Steps are processed in order; a
successful acquire pushes the resource's release step onto the stack
(most recent first), a callback registration pushes the callback, and a
failing acquire aborts the phase (the acquire failure propagates to the
enclosing scope, which then closes the stack).  Returns the final stack
and whether an acquire failed. -/
def acquirePhase : List RStep → List Entry → List Entry × Bool
  | [], st => (st, false)
  | .acquire n aOk rOk :: rest, st =>
      if aOk then acquirePhase rest (.resource n rOk :: st) else (st, true)
  | .pushCallback n cOk :: rest, st =>
      acquirePhase rest (.callback n cOk :: st)

/-- Names of the entries a step list successfully registers on the stack,
in registration order (later steps after a failing acquire never run). -/
def registeredNames : List RStep → List String
  | [] => []
  | .acquire n aOk _ :: rest =>
      if aOk then n :: registeredNames rest else []
  | .pushCallback n _ :: rest => n :: registeredNames rest

/-- Modelled from the spec: `close()` on the Resource Stack iterates the
recorded entries in reverse registration order (the stack list is kept
most-recent-first, so head to tail), invoking each release step exactly
once; a failing release is recorded as an error and iteration continues
through all remaining entries.  Returns the names of the entries whose
release step was invoked, in invocation order, together with the recorded
errors. -/
def closeStack : List Entry → List String × List String
  | [] => ([], [])
  | e :: rest =>
      let r := closeStack rest
      (e.name :: r.1, if e.ok then r.2 else e.name :: r.2)

end RStack

namespace Practice

/-- Embeds `get_connection(name)`'s `ctx.__aenter__` from practice.py: it
prints "ENTER...{name}" and returns `name`.  First component: the printed
lines; second: the value bound by `as`. -/
def get_connection_enter (name : String) : List String × String :=
  (["ENTER..." ++ name], name)

/-- Embeds `get_connection(name)`'s `ctx.__aexit__` from practice.py: it
prints "EXIT! {name}". -/
def get_connection_exit (name : String) : List String :=
  ["EXIT! " ++ name]

/-- An entry recorded on the AsyncExitStack in practice.py's `main`:
either a connection context entered via `enter_async_context`, or the
`custom_cleanup` coroutine pushed via `push_async_callback`. -/
inductive PEntry where
  | conn (name : String)
  | customCleanup
deriving DecidableEq, Repr

/-- Output produced by releasing one stack entry: a connection's
`__aexit__` print, or `custom_cleanup`'s print. -/
def PEntry.close : PEntry → List String
  | .conn n => get_connection_exit n
  | .customCleanup => ["Custom cleanup logic here."]

/-- Modelled from the spec: closing the AsyncExitStack releases the
recorded entries in reverse registration order (the list is kept
most-recent-first). -/
def closeAllP : List PEntry → List String
  | [] => []
  | e :: rest => e.close ++ closeAllP rest

/-- Embeds `main()` from practice.py as the list of lines it prints: enter
"A" on the stack; if the bound value equals "A", enter "B" and print the
"Using connection" line; push `custom_cleanup`; print the "Doing with"
line, whose second part is the bound `b` when `'b' in locals()` and the
fallback "no B" otherwise; finally the `async with` scope closes the
stack. -/
def mainRun : List String :=
  let st0 : List PEntry := []
  let ea := get_connection_enter "A"
  let a := ea.2
  let st1 : List PEntry := .conn "A" :: st0
  let mid : List String × List PEntry × Option String :=
    if a == "A" then
      let eb := get_connection_enter "B"
      let b := eb.2
      (eb.1 ++ ["Using connection: " ++ a ++ " and " ++ b],
       .conn "B" :: st1, some b)
    else ([], st1, none)
  let st2 : List PEntry := .customCleanup :: mid.2.1
  let doing : String :=
    "Doing with " ++ a ++ " and " ++
      (match mid.2.2 with
       | some b => b
       | none => "no B")
  ea.1 ++ mid.1 ++ [doing] ++ closeAllP st2

end Practice

namespace Client

/-- A Python value, as far as the embedded fragment needs it: tool inputs
are arbitrary values, and `call_tool`'s contract concerns whether the
input is a key→value mapping (a dict). -/
inductive PyVal where
  | str (s : String)
  | int (n : Int)
  | dict (kvs : List (String × PyVal))
  | pylist (xs : List PyVal)
  | pynone
deriving Repr

/-- Whether a Python value is a key→value mapping. -/
def PyVal.isDict : PyVal → Bool
  | .dict _ => true
  | _ => false

/-- Error outcomes arising in the embedded fragment.  `attrErrorNone a`
is Python's AttributeError raised when attribute `a` is looked up on
`None` (`self._sess` before any session was entered); the remaining kinds
are the spec's error taxonomy for the external collaborators' failures. -/
inductive Err where
  | attrErrorNone (attrName : String)
  | transportError
  | sessionEnterError
  | initError
  | protocolMisuse
  | invalidArgument
  | remoteToolError
  | connectionLost
deriving DecidableEq, Repr

/-- A remote tool descriptor, per the data model: a name and optional
structured input/output schemas. -/
structure Tool where
  name : String
  inputSchema : Option PyVal
  outputSchema : Option PyVal
deriving Repr

/-- Result of `ClientSession.list_tools()`: the response object whose
`.tools` attribute the client reads. -/
structure ListToolsResult where
  tools : List Tool
deriving Repr

/-- Result of a tool invocation: structured content plus an error
indicator (the code reads `.structuredContent`). -/
structure CallToolResult where
  structuredContent : PyVal
  isError : Bool
deriving Repr

/-- Wire and lifecycle events observable at the boundary between the
client and its external collaborators. -/
inductive WEv where
  | transportOpen
  | transportClose
  | sessionEnter
  | sessionClose
  | initRequest
  | listRequest
  | callRequest (name : String)
deriving DecidableEq, Repr

/-- Outcomes of the external collaborators for one run: whether the
transport opens, whether the session context enters, whether the
initialize handshake is acknowledged, and the server's responses to list
and call requests. -/
structure Env where
  transportOpenOk : Bool
  sessionEnterOk : Bool
  initOk : Bool
  toolsResp : List Tool
  callResult : Except Err CallToolResult

/-- Modelled from the spec: the Protocol Session (mcp.ClientSession) is
SDK code not under src/.  Its observable state here is whether the
initialization handshake has completed (spec states collapse to
Ready ↔ `initialized = true`). -/
structure ClientSession where
  initialized : Bool
deriving DecidableEq, Repr

/-- Modelled from the spec: the Transport Adapter
(mcp.client.streamable_http.streamablehttp_client) is SDK code not under
src/.  Entering it opens the duplex stream to the URL and yields the
`read, write, _` triple the client destructures (halves opaque here); a
failure to open yields no stream and no event. -/
def streamablehttp_client (env : Env) (url : String) :
    Except Err (Unit × Unit × Unit) × List WEv :=
  match url with
  | _ =>
    if env.transportOpenOk then (Except.ok ((), (), ()), [WEv.transportOpen])
    else (Except.error Err.transportError, [])

/-- Modelled from the spec: entering the `ClientSession(read, write)`
context on the stack; on success the session starts uninitialized. -/
def ClientSession.enterContext (env : Env) (read write : Unit) :
    Except Err ClientSession × List WEv :=
  match read, write with
  | (), () =>
    if env.sessionEnterOk then (Except.ok ⟨false⟩, [WEv.sessionEnter])
    else (Except.error Err.sessionEnterError, [])

/-- Modelled from the spec: `initialize()` sends a handshake request and
awaits the acknowledgment; on any other outcome (timeout, malformed
reply) it surfaces an initialization failure, the request having already
gone out. -/
def ClientSession.initialize (env : Env) (s : ClientSession) :
    Except Err ClientSession × List WEv :=
  if env.initOk then (Except.ok { s with initialized := true }, [WEv.initRequest])
  else (Except.error Err.initError, [WEv.initRequest])

/-- Modelled from the spec: `list_tools()` is valid only in `Ready`
(else a protocol-misuse state error, nothing sent); otherwise it sends a
list request and returns the ordered tool descriptors as received. -/
def ClientSession.list_tools (env : Env) (s : ClientSession) :
    Except Err ListToolsResult × List WEv :=
  if s.initialized then (Except.ok ⟨env.toolsResp⟩, [WEv.listRequest])
  else (Except.error Err.protocolMisuse, [])

/-- Modelled from the spec: `call_tool(name, input)` is valid only in
`Ready` (else a protocol-misuse state error, nothing sent); it validates
`name` non-empty and `input` a key→value mapping before sending anything;
only then does it send the invocation request and return the result or
the remote failure. -/
def ClientSession.call_tool (env : Env) (s : ClientSession)
    (name : String) (input : PyVal) : Except Err CallToolResult × List WEv :=
  if s.initialized then
    if name = "" then (Except.error Err.invalidArgument, [])
    else if input.isDict then (env.callResult, [WEv.callRequest name])
    else (Except.error Err.invalidArgument, [])
  else (Except.error Err.protocolMisuse, [])

/-- Entries recorded on the facade's AsyncExitStack, most recent first. -/
inductive CEntry where
  | transport
  | session
deriving DecidableEq, Repr

/-- Release event of one stack entry. -/
def CEntry.closeEv : CEntry → WEv
  | .transport => WEv.transportClose
  | .session => WEv.sessionClose

/-- Embeds the `MCPClient` object state from client.py: the target URL,
the AsyncExitStack contents, and `self._sess` (None until a session
context is entered). -/
structure MCPClient where
  url : String
  stack : List CEntry
  _sess : Option ClientSession
deriving Repr

/-- Embeds `MCPClient.__init__(url)`: stores the URL, a fresh empty
AsyncExitStack, and `_sess = None`. -/
def MCPClient.init (url : String) : MCPClient :=
  { url := url, stack := [], _sess := none }

/-- Embeds `MCPClient.__aenter__`: enters the transport on the stack and
destructures `read, write, _`; enters `ClientSession(read, write)` on the
stack and stores it in `_sess`; awaits `initialize()`; returns `self`.
There is no exception handling: a failure at any step propagates with the
stack left as it is (already-entered entries are neither closed here nor
by `__aexit__`, which Python does not call when `__aenter__` raises). -/
def MCPClient.aenter (c : MCPClient) (env : Env) :
    Except Err MCPClient × List WEv :=
  match streamablehttp_client env c.url with
  | (Except.error e, evs) => (Except.error e, evs)
  | (Except.ok (read, write, _), evs1) =>
    let c1 : MCPClient := { c with stack := CEntry.transport :: c.stack }
    match ClientSession.enterContext env read write with
    | (Except.error e, evs2) => (Except.error e, evs1 ++ evs2)
    | (Except.ok s, evs2) =>
      let c2 : MCPClient :=
        { c1 with stack := CEntry.session :: c1.stack, _sess := some s }
      match ClientSession.initialize env s with
      | (Except.error e, evs3) => (Except.error e, evs1 ++ evs2 ++ evs3)
      | (Except.ok s1, evs3) =>
        (Except.ok { c2 with _sess := some s1 }, evs1 ++ evs2 ++ evs3)

/-- Embeds `MCPClient.__aexit__(self, *args)`: it ignores its arguments,
awaits `self.stack.aclose()` (releasing the recorded entries most recent
first and emptying the stack), and returns None — a non-truthy value, so
it never suppresses an in-flight exception.  Components: the suppression
value, the release events, the object afterwards. -/
def MCPClient.aexit (c : MCPClient) (excInfo : Option Err) :
    Bool × List WEv × MCPClient :=
  match excInfo with
  | _ => (false, c.stack.map CEntry.closeEv, { c with stack := [] })

/-- Embeds `MCPClient.list_tool_names`: reads `self._sess` (AttributeError
on None), awaits `self._sess.list_tools()`, reads `.tools`, and returns
the list of each tool's `.name` in order. -/
def MCPClient.list_tool_names (c : MCPClient) (env : Env) :
    Except Err (List String) × List WEv :=
  match c._sess with
  | none => (Except.error (Err.attrErrorNone "list_tools"), [])
  | some s =>
    match ClientSession.list_tools env s with
    | (Except.ok r, evs) => (Except.ok (r.tools.map Tool.name), evs)
    | (Except.error e, evs) => (Except.error e, evs)

/-- Embeds `MCPClient.call_tool(tool_name, tool_input)`: reads
`self._sess` (AttributeError on None) and delegates directly, returning
`await self._sess.call_tool(tool_name, tool_input)` unchanged. -/
def MCPClient.call_tool (c : MCPClient) (env : Env)
    (tool_name : String) (tool_input : PyVal) :
    Except Err CallToolResult × List WEv :=
  match c._sess with
  | none => (Except.error (Err.attrErrorNone "call_tool"), [])
  | some s => ClientSession.call_tool env s tool_name tool_input

/-- One operation the application may perform on an entered client, as in
client.py's `main` (which calls `call_tool`) and the earlier drafts'
`main` (which call `list_tool_names`). -/
inductive Op where
  | listNames
  | callTool (name : String) (input : PyVal)

/-- Wire events emitted by one facade operation. -/
def runOp (env : Env) (c : MCPClient) : Op → List WEv
  | .listNames => (c.list_tool_names env).2
  | .callTool n i => (c.call_tool env n i).2

/-- Wire events emitted by a sequence of facade operations. -/
def runOps (env : Env) (c : MCPClient) : List Op → List WEv
  | [] => []
  | op :: rest => runOp env c op ++ runOps env c rest

/-- Wire events of a whole `async with MCPClient(url) as client:` program
whose body performs the given operations: acquisition, then the body,
then release; if acquisition fails the failure propagates and nothing
else runs (Python does not call `__aexit__` when `__aenter__` raises). -/
def runProgram (env : Env) (url : String) (ops : List Op) : List WEv :=
  match (MCPClient.init url).aenter env with
  | (Except.error _, evs) => evs
  | (Except.ok c, evs) => evs ++ runOps env c ops ++ (c.aexit none).2.1

/-- Semantics of `async with MCPClient(url) as client:` around an
arbitrary body: on successful acquisition the body runs, then
`__aexit__` receives the body's exception (if any) and runs the
teardown; a body failure is suppressed only if `__aexit__` returns a
truthy value, otherwise it propagates after teardown. -/
def runAsyncWith (env : Env) (url : String)
    (body : MCPClient → Except Err PyVal × List WEv) :
    Except Err (Option PyVal) × List WEv :=
  match (MCPClient.init url).aenter env with
  | (Except.error e, evs) => (Except.error e, evs)
  | (Except.ok c, evs) =>
    let br := body c
    let excInfo : Option Err :=
      match br.1 with
      | Except.error e => some e
      | Except.ok _ => none
    let ar := c.aexit excInfo
    let result : Except Err (Option PyVal) :=
      match br.1, ar.1 with
      | Except.error _, true => Except.ok none
      | Except.error e, false => Except.error e
      | Except.ok v, _ => Except.ok (some v)
    (result, evs ++ br.2 ++ ar.2.1)

/-- The client state produced by a successful `__aenter__` on a fresh
`MCPClient(url)`: transport then session on the stack (most recent
first), `_sess` holding the initialized session. -/
def readyClient (url : String) : MCPClient :=
  { url := url, stack := [CEntry.session, CEntry.transport],
    _sess := some ⟨true⟩ }

/-- An environment in which every collaborator step succeeds and the
server reports one tool and one successful call result. -/
def envAllOk : Env :=
  { transportOpenOk := true, sessionEnterOk := true, initOk := true,
    toolsResp := [⟨"get_greeting", none, none⟩],
    callResult := Except.ok ⟨PyVal.dict [("greeting", PyVal.str "Hello, Alice!")], false⟩ }

/-- The spec's C2 scenario environment: the transport opens and the
session enters, but the initialize handshake times out. -/
def envHandshakeTimeout : Env :=
  { envAllOk with initOk := false }

end Client

/-- Whether an Except value is a failure. -/
def Client.isErr {ε α : Type} : Except ε α → Bool
  | .error _ => true
  | .ok _ => false

/-- The client object left behind when `__aenter__` fails after entering
both contexts: the handshake failure propagated, so the stack still holds
both entries and `_sess` holds the uninitialized session. -/
def Client.leakedClient : Client.MCPClient :=
  { url := "http://localhost:8000/mcp",
    stack := [Client.CEntry.session, Client.CEntry.transport],
    _sess := some ⟨false⟩ }

/-- A body for the `async with` scope that raises. -/
def Client.bodyRaising :
    Client.MCPClient → Except Client.Err Client.PyVal × List Client.WEv :=
  fun c =>
    match c with
    | _ => (Except.error Client.Err.remoteToolError, [])

/-- An environment whose list response repeats a name, to exhibit that
projection neither deduplicates nor reorders. -/
def Client.envThreeTools : Client.Env :=
  { Client.envAllOk with
    toolsResp := [⟨"alpha", none, none⟩, ⟨"beta", none, none⟩,
                  ⟨"alpha", none, none⟩] }

open RStack Practice Client

/-- Release invocations of a close are exactly the stacked entries'
names, head (most recently registered) first, whatever the success flags
of the individual release steps. -/
theorem closeStack_names (st : List Entry) :
    (closeStack st).1 = st.map Entry.name := by
  induction st with
  | nil => rfl
  | cons e rest ih => simp [closeStack, ih]

/-- After the acquisition phase the stack holds exactly the successfully
registered entries, most recent first, on top of whatever was below. -/
theorem acquirePhase_names (ss : List RStep) (st : List Entry) :
    ((acquirePhase ss st).1).map Entry.name =
      (registeredNames ss).reverse ++ st.map Entry.name := by
  induction ss generalizing st with
  | nil => simp [acquirePhase, registeredNames]
  | cons s rest ih =>
    cases s with
    | acquire n aOk rOk =>
      cases aOk with
      | false => simp [acquirePhase, registeredNames]
      | true => simp [acquirePhase, registeredNames, Entry.name, ih]
    | pushCallback n cOk => simp [acquirePhase, registeredNames, Entry.name, ih]

/-- C1: for every sequence of resources acquired through the Resource
Stack and every pushed cleanup callback, closing the stack invokes the
release steps in exactly the reverse of registration order — the
invocation list equals the reversed registration list whatever the
acquire/release success flags, so no later entry's release is skipped
because an earlier entry's acquire or release failed. -/
theorem c1_stack_releases_in_reverse_never_skipping (ss : List RStep) :
    (closeStack (acquirePhase ss []).1).1 = (registeredNames ss).reverse := by
  rw [closeStack_names]
  simpa using acquirePhase_names ss []

/-- C10: in practice.py's `main`, the guard on acquiring connection "B"
always holds — `get_connection("A").__aenter__` returns the string "A",
the run prints exactly the seven lines below (so "B" is acquired and the
"Using connection" line printed on every run), and the "no B" fallback of
the final print never appears in the output. -/
theorem c10_guard_holds_fallback_unreachable :
    (Practice.get_connection_enter "A").2 = "A" ∧
    Practice.mainRun =
      ["ENTER...A", "ENTER...B", "Using connection: A and B",
       "Doing with A and B", "Custom cleanup logic here.",
       "EXIT! B", "EXIT! A"] ∧
    "Doing with A and no B" ∉ Practice.mainRun := by
  refine ⟨rfl, rfl, ?_⟩
  decide

/-- C7 counterexample: the claim puts any additionally pushed cleanup
callbacks after the resource closes ("Session close first, then
Transport close, then any additionally pushed cleanup callbacks"), but
in practice.py's `main` — where a callback is pushed after both
connections are entered — reverse registration order runs the callback
first: the cleanup print is at index 4 of the run, before both EXIT
lines, not after them. -/
theorem c7_counterexample_callback_runs_first :
    Practice.mainRun.indexOf "Custom cleanup logic here." = 4 ∧
    Practice.mainRun.indexOf "EXIT! B" = 5 ∧
    Practice.mainRun.indexOf "EXIT! A" = 6 ∧
    ¬ (Practice.mainRun.indexOf "EXIT! A" <
        Practice.mainRun.indexOf "Custom cleanup logic here.") := by
  decide

/-- A successful `__aenter__` determines the resulting client: URL kept,
session then transport pushed above the previous stack, and `_sess`
holding the initialized session. -/
theorem aenter_ok_shape (c c' : MCPClient) (env : Env) (evs : List WEv)
    (h : c.aenter env = (Except.ok c', evs)) :
    c' = { url := c.url,
           stack := [CEntry.session, CEntry.transport] ++ c.stack,
           _sess := some ⟨true⟩ } ∧
    evs = [WEv.transportOpen, WEv.sessionEnter, WEv.initRequest] := by
  cases h1 : env.transportOpenOk <;> cases h2 : env.sessionEnterOk <;>
    cases h3 : env.initOk <;>
      simp [MCPClient.aenter, streamablehttp_client, ClientSession.enterContext,
            ClientSession.initialize, h1, h2, h3, Prod.ext_iff] at h
  exact ⟨h.1.symm, h.2.symm⟩

/-- On a fresh client, a fully successful environment makes `__aenter__`
produce the ready client and emit exactly the three acquisition events in
order. -/
theorem aenter_all_ok (env : Env) (url : String)
    (h1 : env.transportOpenOk = true) (h2 : env.sessionEnterOk = true)
    (h3 : env.initOk = true) :
    (MCPClient.init url).aenter env =
      (Except.ok (readyClient url),
       [WEv.transportOpen, WEv.sessionEnter, WEv.initRequest]) := by
  simp [MCPClient.aenter, MCPClient.init, streamablehttp_client,
        ClientSession.enterContext, ClientSession.initialize, readyClient,
        h1, h2, h3]

/-- C7 (amended): on release the stack unwinds in strict reverse
registration order — cleanup callbacks pushed after the resources run
first (as in practice.py, where the cleanup print precedes both EXIT
lines), and the facade, which pushes no callbacks, closes the Session
first and then the Transport. -/
theorem c7_amended_teardown_reverse (env : Env) (c c' : MCPClient)
    (evs : List WEv) (h0 : c.stack = [])
    (h : c.aenter env = (Except.ok c', evs)) :
    (c'.aexit none).2.1 = [WEv.sessionClose, WEv.transportClose] ∧
    Practice.mainRun.drop 4 =
      ["Custom cleanup logic here.", "EXIT! B", "EXIT! A"] := by
  obtain ⟨hc, -⟩ := aenter_ok_shape c c' env evs h
  subst hc
  exact ⟨by simp [MCPClient.aexit, CEntry.closeEv, h0], rfl⟩

/-- Witness for C7 (amended) at a concrete fresh client and an
all-successful environment. -/
theorem c7_amended_teardown_reverse_witness :
    ((readyClient "http://localhost:8000/mcp").aexit none).2.1 =
      [WEv.sessionClose, WEv.transportClose] ∧
    Practice.mainRun.drop 4 =
      ["Custom cleanup logic here.", "EXIT! B", "EXIT! A"] :=
  c7_amended_teardown_reverse envAllOk
    (MCPClient.init "http://localhost:8000/mcp")
    (readyClient "http://localhost:8000/mcp")
    [WEv.transportOpen, WEv.sessionEnter, WEv.initRequest] rfl rfl

/-- C2 evidence: in the spec's own scenario — transport opened, session
entered, handshake times out — `__aenter__` propagates the
initialization failure having emitted only the three acquisition events:
the Transport's close is invoked zero times, not exactly once, because
`__aenter__` has no failure path that closes the stack and Python does
not run `__aexit__` when `__aenter__` raises. -/
theorem c2_handshake_failure_leaves_transport_open :
    (MCPClient.init "http://localhost:8000/mcp").aenter envHandshakeTimeout =
      (Except.error Err.initError,
       [WEv.transportOpen, WEv.sessionEnter, WEv.initRequest]) ∧
    ((MCPClient.init "http://localhost:8000/mcp").aenter
        envHandshakeTimeout).2.count WEv.transportClose = 0 ∧
    ((MCPClient.init "http://localhost:8000/mcp").aenter
        envHandshakeTimeout).2.count WEv.sessionClose = 0 := by
  refine ⟨rfl, ?_, ?_⟩ <;> decide

/-- C3 counterexample: on a freshly constructed client — so
`initialize()` has certainly not run — `call_tool` fails by dereferencing
`self._sess = None` (an AttributeError), which is not the
ProtocolMisuseError the claim requires; no request is sent. -/
theorem c3_counterexample_attribute_error :
    (MCPClient.init "http://localhost:8000/mcp").call_tool envAllOk
        "get_greeting" (PyVal.dict [("name", PyVal.str "Alice")]) =
      (Except.error (Err.attrErrorNone "call_tool"), []) ∧
    Err.attrErrorNone "call_tool" ≠ Err.protocolMisuse := by
  exact ⟨rfl, by decide⟩

/-- C3 (amended): invoking `call_tool` before `initialize()` has run
always fails and sends no request on the wire; the failure is a
protocol-misuse state error when a session was entered but not
initialized, and a None-attribute error when no session was entered. -/
theorem c3_amended_call_before_init_fails_nothing_sent
    (c : MCPClient) (env : Env) (name : String) (input : PyVal)
    (h : c._sess = none ∨ ∃ s, c._sess = some s ∧ s.initialized = false) :
    isErr (c.call_tool env name input).1 = true ∧
    (c.call_tool env name input).2 = [] ∧
    (c.call_tool env name input).1 =
      (match c._sess with
       | none => Except.error (Err.attrErrorNone "call_tool")
       | some _ => Except.error Err.protocolMisuse) := by
  rcases h with h | ⟨s, hs, hi⟩
  · refine ⟨?_, ?_, ?_⟩ <;> simp [MCPClient.call_tool, h, isErr]
  · refine ⟨?_, ?_, ?_⟩ <;>
      simp [MCPClient.call_tool, ClientSession.call_tool, hs, hi, isErr]

/-- Witness for C3 (amended) at the client state a failed handshake
leaves behind: the entered-but-uninitialized session. -/
theorem c3_amended_witness :
    isErr (leakedClient.call_tool envAllOk "get_greeting"
        (PyVal.dict [("name", PyVal.str "Alice")])).1 = true ∧
    (leakedClient.call_tool envAllOk "get_greeting"
        (PyVal.dict [("name", PyVal.str "Alice")])).2 = [] ∧
    (leakedClient.call_tool envAllOk "get_greeting"
        (PyVal.dict [("name", PyVal.str "Alice")])).1 =
      Except.error Err.protocolMisuse :=
  c3_amended_call_before_init_fails_nothing_sent leakedClient envAllOk
    "get_greeting" (PyVal.dict [("name", PyVal.str "Alice")])
    (Or.inr ⟨⟨false⟩, rfl, rfl⟩)

/-- C4: for every list response of 0..k tool descriptors the session
returns, `list_tool_names()` returns exactly the name fields of those
descriptors, in the same order, with no reordering, deduplication or
omission. -/
theorem c4_list_tool_names_projects_in_order
    (c : MCPClient) (env : Env) (s : ClientSession) (r : ListToolsResult)
    (evs : List WEv) (hs : c._sess = some s)
    (hl : ClientSession.list_tools env s = (Except.ok r, evs)) :
    (c.list_tool_names env).1 = Except.ok (r.tools.map Tool.name) := by
  simp [MCPClient.list_tool_names, hs, hl]

/-- Witness for C4 on a response of three descriptors with a repeated
name: the projection keeps order and multiplicity. -/
theorem c4_witness :
    ((readyClient "http://localhost:8000/mcp").list_tool_names
        envThreeTools).1 = Except.ok ["alpha", "beta", "alpha"] :=
  c4_list_tool_names_projects_in_order
    (readyClient "http://localhost:8000/mcp") envThreeTools ⟨true⟩
    ⟨[⟨"alpha", none, none⟩, ⟨"beta", none, none⟩, ⟨"alpha", none, none⟩]⟩
    [WEv.listRequest] rfl rfl

/-- C5: for every call whose name is the empty string or whose input is
not a key→value mapping, `call_tool` fails and no invocation request is
sent on the wire. -/
theorem c5_invalid_arguments_fail_nothing_sent
    (c : MCPClient) (env : Env) (name : String) (input : PyVal)
    (h : name = "" ∨ input.isDict = false) :
    isErr (c.call_tool env name input).1 = true ∧
    (c.call_tool env name input).2 = [] := by
  cases hs : c._sess with
  | none => constructor <;> simp [MCPClient.call_tool, hs, isErr]
  | some s =>
    by_cases hi : s.initialized
    · rcases h with h | h
      · constructor <;>
          simp [MCPClient.call_tool, ClientSession.call_tool, hs, hi, h, isErr]
      · by_cases hn : name = ""
        · constructor <;>
            simp [MCPClient.call_tool, ClientSession.call_tool, hs, hi, hn, isErr]
        · constructor <;>
            simp [MCPClient.call_tool, ClientSession.call_tool, hs, hi, hn, h, isErr]
    · constructor <;>
        simp [MCPClient.call_tool, ClientSession.call_tool, hs, hi, isErr]

/-- Witness for C5 at an empty tool name on a ready client. -/
theorem c5_witness :
    isErr ((readyClient "http://localhost:8000/mcp").call_tool envAllOk
        "" (PyVal.dict [])).1 = true ∧
    ((readyClient "http://localhost:8000/mcp").call_tool envAllOk
        "" (PyVal.dict [])).2 = [] :=
  c5_invalid_arguments_fail_nothing_sent
    (readyClient "http://localhost:8000/mcp") envAllOk "" (PyVal.dict [])
    (Or.inl rfl)

/-- C6: on any client whose `_sess` holds a session, the facade's
`call_tool` is extensionally equal to the underlying session's
`call_tool` on the same arguments — result, failure and wire events all
pass through unchanged. -/
theorem c6_call_tool_delegates_unchanged
    (c : MCPClient) (env : Env) (s : ClientSession)
    (name : String) (input : PyVal) (hs : c._sess = some s) :
    c.call_tool env name input = ClientSession.call_tool env s name input := by
  simp [MCPClient.call_tool, hs]

/-- Witness for C6 at a ready client and a concrete invocation. -/
theorem c6_witness :
    (readyClient "http://localhost:8000/mcp").call_tool envAllOk
        "get_greeting" (PyVal.dict [("name", PyVal.str "Alice")]) =
      ClientSession.call_tool envAllOk ⟨true⟩
        "get_greeting" (PyVal.dict [("name", PyVal.str "Alice")]) :=
  c6_call_tool_delegates_unchanged
    (readyClient "http://localhost:8000/mcp") envAllOk ⟨true⟩
    "get_greeting" (PyVal.dict [("name", PyVal.str "Alice")]) rfl

/-- No facade operation ever emits a handshake request. -/
theorem runOp_no_initRequest (env : Env) (c : MCPClient) (op : Op) :
    WEv.initRequest ∉ runOp env c op := by
  cases op with
  | listNames =>
    cases hs : c._sess with
    | none => simp [runOp, MCPClient.list_tool_names, hs]
    | some s =>
      by_cases hi : s.initialized <;>
        simp [runOp, MCPClient.list_tool_names, ClientSession.list_tools, hs, hi]
  | callTool n i =>
    cases hs : c._sess with
    | none => simp [runOp, MCPClient.call_tool, hs]
    | some s =>
      by_cases hi : s.initialized
      · by_cases hn : n = ""
        · simp [runOp, MCPClient.call_tool, ClientSession.call_tool, hs, hi, hn]
        · by_cases hd : i.isDict <;>
            simp [runOp, MCPClient.call_tool, ClientSession.call_tool, hs, hi, hn, hd]
      · simp [runOp, MCPClient.call_tool, ClientSession.call_tool, hs, hi]

/-- No sequence of facade operations ever emits a handshake request. -/
theorem runOps_no_initRequest (env : Env) (c : MCPClient) (ops : List Op) :
    WEv.initRequest ∉ runOps env c ops := by
  induction ops with
  | nil => simp [runOps]
  | cons op rest ih =>
    simp only [runOps, List.mem_append]
    rintro (h | h)
    · exact runOp_no_initRequest env c op h
    · exact ih h

/-- C8: under an environment in which every acquisition step succeeds,
a whole facade program performs its steps in the fixed order transport
open, session enter, handshake — only then do the body's list/call
operations run, followed by the teardown; the handshake request is sent
exactly once in the whole run, before every list/call request. -/
theorem c8_acquisition_order_init_exactly_once
    (env : Env) (url : String) (ops : List Op)
    (h1 : env.transportOpenOk = true) (h2 : env.sessionEnterOk = true)
    (h3 : env.initOk = true) :
    runProgram env url ops =
      [WEv.transportOpen, WEv.sessionEnter, WEv.initRequest] ++
        runOps env (readyClient url) ops ++
        [WEv.sessionClose, WEv.transportClose] ∧
    WEv.initRequest ∉ runOps env (readyClient url) ops ∧
    (runProgram env url ops).count WEv.initRequest = 1 := by
  have hfirst : runProgram env url ops =
      [WEv.transportOpen, WEv.sessionEnter, WEv.initRequest] ++
        runOps env (readyClient url) ops ++
        [WEv.sessionClose, WEv.transportClose] := by
    simp [runProgram, aenter_all_ok env url h1 h2 h3, MCPClient.aexit,
          readyClient, CEntry.closeEv]
  have hmem : WEv.initRequest ∉ runOps env (readyClient url) ops :=
    runOps_no_initRequest env (readyClient url) ops
  refine ⟨hfirst, hmem, ?_⟩
  rw [hfirst]
  simp [List.count_append, List.count_eq_zero.mpr hmem, List.count_cons]

/-- Witness for C8 on a concrete run whose body lists tool names and
calls a tool. -/
theorem c8_witness :
    runProgram envAllOk "http://localhost:8000/mcp"
        [Op.listNames,
         Op.callTool "get_greeting" (PyVal.dict [("name", PyVal.str "Alice")])] =
      [WEv.transportOpen, WEv.sessionEnter, WEv.initRequest] ++
        runOps envAllOk (readyClient "http://localhost:8000/mcp")
          [Op.listNames,
           Op.callTool "get_greeting" (PyVal.dict [("name", PyVal.str "Alice")])] ++
        [WEv.sessionClose, WEv.transportClose] ∧
    WEv.initRequest ∉
      runOps envAllOk (readyClient "http://localhost:8000/mcp")
        [Op.listNames,
         Op.callTool "get_greeting" (PyVal.dict [("name", PyVal.str "Alice")])] ∧
    (runProgram envAllOk "http://localhost:8000/mcp"
        [Op.listNames,
         Op.callTool "get_greeting" (PyVal.dict [("name", PyVal.str "Alice")])]).count
      WEv.initRequest = 1 :=
  c8_acquisition_order_init_exactly_once envAllOk "http://localhost:8000/mcp"
    [Op.listNames,
     Op.callTool "get_greeting" (PyVal.dict [("name", PyVal.str "Alice")])]
    rfl rfl rfl

/-- C9: `__aexit__` ignores the exception details passed to it, closes
the Resource Stack (releasing the recorded entries most recent first) and
returns a non-truthy value, never suppressing; hence a failure raised
inside the `async with` scope propagates unchanged after the teardown
events have occurred. -/
theorem c9_aexit_ignores_args_never_suppresses :
    (∀ (c : MCPClient) (e1 e2 : Option Err), c.aexit e1 = c.aexit e2) ∧
    (∀ (c : MCPClient) (e : Option Err),
        (c.aexit e).1 = false ∧
        (c.aexit e).2.1 = c.stack.map CEntry.closeEv) ∧
    (∀ (env : Env) (url : String)
        (body : MCPClient → Except Err PyVal × List WEv)
        (c : MCPClient) (evs bevs : List WEv) (e : Err),
        (MCPClient.init url).aenter env = (Except.ok c, evs) →
        body c = (Except.error e, bevs) →
        runAsyncWith env url body =
          (Except.error e, evs ++ bevs ++ c.stack.map CEntry.closeEv)) := by
  refine ⟨fun c e1 e2 => rfl, fun c e => ⟨rfl, rfl⟩, ?_⟩
  intro env url body c evs bevs e ha hb
  simp [runAsyncWith, ha, hb, MCPClient.aexit]

/-- Witness for C9: a concrete scope whose body raises a remote error;
the error propagates after the two teardown events. -/
theorem c9_witness :
    runAsyncWith envAllOk "http://localhost:8000/mcp" bodyRaising =
      (Except.error Err.remoteToolError,
       [WEv.transportOpen, WEv.sessionEnter, WEv.initRequest,
        WEv.sessionClose, WEv.transportClose]) :=
  c9_aexit_ignores_args_never_suppresses.2.2 envAllOk
    "http://localhost:8000/mcp" bodyRaising
    (readyClient "http://localhost:8000/mcp")
    [WEv.transportOpen, WEv.sessionEnter, WEv.initRequest] []
    Err.remoteToolError rfl rfl
